import Mathlib

/-!
Verification development for the PuzzleVQA evaluation harness
(`src/modeling.py` and `src/main.py`).

The Python code is shallowly embedded: pure logic becomes Lean functions,
backend API calls are abstracted as sequences of attempt results, the
unbounded `while not output` retry loops become structural recursion over a
finite list of attempt results (an exhausted list models "still looping",
i.e. the call has not returned), and file/client state is threaded
explicitly.  Machine strings are Lean `String`s; Python's substring test
`pat in s` is `strContains`.
-/

/-- Python's substring test `pat in s` on strings. -/
def strContains (s pat : String) : Bool := decide (pat.toList <:+: s.toList)

/-! ## Image model (`EvalModel.resize_image`, modeling.py lines 20-32)

`PIL.Image.size` is the pair `(width, height)`; the source unpacks it as
`h, w = image.size`, so the source's `h` is the width and `w` the height.
We keep fields `width`/`height` and follow the source's arithmetic exactly:
`factor = max_image_size / max(h, w)` with Python's true division modelled
over `ℚ`, and Python's `round` modelled by Mathlib's `round` (round to
nearest integer). -/

/-- A PIL image mode string, e.g. "RGB" or "RGBA". -/
inductive ImageMode where
  | RGB
  | RGBA
  | other (s : String)
deriving DecidableEq, Repr

/-- The attributes of a `PIL.Image` that `resize_image` inspects or changes. -/
structure PImage where
  width : Nat
  height : Nat
  mode : ImageMode
deriving DecidableEq, Repr

/-- `EvalModel.resize_image` (modeling.py lines 20-32).  `maxSize` is the
field `max_image_size` (default 1024). -/
def resize_image (maxSize : Nat) (image : PImage) : PImage :=
  -- h, w = image.size
  let h := image.width
  let w := image.height
  if h ≤ maxSize ∧ w ≤ maxSize then
    image
  else
    -- factor = self.max_image_size / max(h, w)
    let factor : ℚ := (maxSize : ℚ) / (max h w : ℕ)
    -- h = round(h * factor); w = round(w * factor)
    let h' : ℤ := round ((h : ℚ) * factor)
    let w' : ℤ := round ((w : ℚ) * factor)
    -- if image.mode == "RGBA": image = image.convert("RGB")
    let mode' := if image.mode = ImageMode.RGBA then ImageMode.RGB else image.mode
    -- image = image.resize((h, w), Image.LANCZOS)
    { width := h'.toNat, height := w'.toNat, mode := mode' }

/-- Default of the `max_image_size` field of `EvalModel`. -/
def max_image_size_default : Nat := 1024

/-! ## Retry loops (`GeminiModel.run`, `OpenAIModel.run`, `ClaudeModel.run`)

Each `run` repeats `while not output:` where one iteration attempts a
backend call.  We abstract one backend attempt as a value describing how the
call came back (an exception with a message, or a response object), give a
per-backend function computing the `output` string an iteration produces
from that attempt, and run the loop over a finite list of attempt results.
`none` means the list was exhausted with `output` still empty, i.e. the
loop is still running. -/

/-- The common retry loop: consume attempt results until one yields a
non-empty `output`; `none` models a loop that has not terminated. -/
def retryRun (f : α → String) : List α → Option String
  | [] => none
  | a :: rest => if f a = "" then retryRun f rest else some (f a)

/-- One attempted Gemini API call, as `GeminiModel.run` observes it:
either `generate_content` raised, or it returned a response object.
`varsStr` is Python's `str(vars(response))`, `parts` the `response.parts`
list, `text` the `response.text` accessor. -/
inductive GeminiAttempt where
  | exc (msg : String)
  | response (varsStr : String) (parts : List String) (text : String)
deriving DecidableEq, Repr

/-- The `output` produced by one iteration of `GeminiModel.run`'s loop
(modeling.py lines 58-69): an exception leaves `output` empty; a response
with "block_reason" in `str(vars(response))` sets `output` to that string;
empty `response.parts` sets the literal placeholder; otherwise `output`
is `response.text`. -/
def geminiAttemptOutput : GeminiAttempt → String
  | .exc _ => ""
  | .response varsStr parts text =>
      if strContains varsStr "block_reason" then varsStr
      else if parts = [] then "Empty response.parts from gemini"
      else text

/-- `GeminiModel.run` (modeling.py lines 50-75), with the API abstracted as
a list of attempt results. -/
def geminiRun (attempts : List GeminiAttempt) : Option String :=
  retryRun geminiAttemptOutput attempts

/-- The fixed string `error_message` of `OpenAIModel.run` and
`ClaudeModel.run` (modeling.py lines 106 and 231). -/
def error_message : String := "The response was filtered"

/-- One attempted OpenAI API call: an exception with a message, or a
response carrying `choices[0].finish_reason` and `choices[0].message.content`. -/
inductive OpenAIAttempt where
  | exc (msg : String)
  | response (finishReason : String) (content : String)
deriving DecidableEq, Repr

/-- The `output` produced by one iteration of `OpenAIModel.run`'s loop
(modeling.py lines 108-127): a `content_filter` finish reason raises
`ValueError(error_message)`, which the handler turns into the sentinel;
any other exception sets the sentinel only if its message contains
`error_message`, else leaves `output` empty. -/
def openaiAttemptOutput : OpenAIAttempt → String
  | .exc msg => if strContains msg error_message then error_message else ""
  | .response finishReason content =>
      if finishReason = "content_filter" then error_message else content

/-- `OpenAIModel.run` (modeling.py lines 103-128), with the API abstracted
as a list of attempt results. -/
def openaiRun (attempts : List OpenAIAttempt) : Option String :=
  retryRun openaiAttemptOutput attempts

/-- One attempted Claude API call: an exception with a message, or a
response carrying `response.content[0].text`. -/
inductive ClaudeAttempt where
  | exc (msg : String)
  | response (contentText : String)
deriving DecidableEq, Repr

/-- The Python exception message raised by `resize_image(None)` inside
`ClaudeModel.make_messages` when `image is None`: `h, w = image.size`
evaluates `None.size`. -/
def noneSizeError : String := "'NoneType' object has no attribute 'size'"

/-- The `output` produced by one iteration of `ClaudeModel.run`'s loop
(modeling.py lines 233-250).  `make_messages` is evaluated inside the
`try` on every iteration, and with `image = None` it unconditionally
raises an AttributeError (`resize_image` touches `image.size`) before the
API is ever reached; with an image present the iteration's outcome is the
attempt result. -/
def claudeAttemptOutput (image : Option PImage) : ClaudeAttempt → String
  | a =>
    match image with
    | none => if strContains noneSizeError error_message then error_message else ""
    | some _ =>
      match a with
      | .exc msg => if strContains msg error_message then error_message else ""
      | .response contentText => contentText

/-- `ClaudeModel.run` (modeling.py lines 228-252), with the API abstracted
as a list of attempt results. -/
def claudeRun (image : Option PImage) (attempts : List ClaudeAttempt) : Option String :=
  retryRun (claudeAttemptOutput image) attempts

/-! ## Llava (`LlavaModel.run`, modeling.py lines 182-195)

`LlavaModel.run` has no loop and no exception handler: it formats the
prompt into the template, optionally resizes the image, runs one
generation, and returns the decoded text as-is.  The HF generate+decode
pipeline is abstracted as a function from the formatted prompt and
prepared image to the decoded string. -/

/-- The `template` field of `LlavaModel` applied to a prompt. -/
def llavaTemplate (prompt : String) : String :=
  "USER: <image>\n" ++ prompt ++ "\nASSISTANT:"

/-- `LlavaModel.run`: a single generate+decode attempt whose result is
returned unchanged (no retry loop, no emptiness check). -/
def llavaRun (generateDecode : String → Option PImage → String)
    (maxSize : Nat) (prompt : String) (image : Option PImage) : String :=
  generateDecode (llavaTemplate prompt) (image.map (resize_image maxSize))

/-! ## Evaluation loop (`main.py`)

`evaluate_multi_choice` processes one sample at a time: build the
zero-shot prompt, invoke the model, parse; if the parsed prediction is not
in the sample's option list, build the extraction prompt, invoke the model
a second time, re-parse; then score by exact match and report the running
mean of the 0/1 outcomes.  The prompter and model are external
collaborators here: `getAnswer` abstracts `prompter.get_answer`, and
`model k` abstracts the raw output of the k-th backend invocation made for
this sample. -/

/-- The fields of a `Sample` that the evaluation and scoring logic reads. -/
structure Sample where
  options : List String
  answer : String
deriving DecidableEq, Repr

/-- `ExactScorer.run` (main.py lines 17-21): 1.0 on exact string equality
of prediction and answer, else 0.0. -/
def exactScorerRun (pred answer : String) : ℚ :=
  if pred = answer then 1 else 0

/-- The per-sample body of the loop in `evaluate_multi_choice`
(main.py lines 52-63), returning the final parsed prediction together
with the number of backend invocations performed. -/
def evalSample (model : Nat → String) (getAnswer : String → List String → String)
    (s : Sample) : String × Nat :=
  let raw0 := model 0
  let pred0 := getAnswer raw0 s.options
  if pred0 ∈ s.options then (pred0, 1)
  else
    let raw1 := model 1
    let pred1 := getAnswer raw1 s.options
    (pred1, 2)

/-- Default of the `prevent_direct_answer` parameter of
`evaluate_multi_choice` (main.py line 29). -/
def prevent_direct_answer_default : Bool := false

/-- Default of the `use_describe_image_prompt` parameter of
`evaluate_multi_choice` (main.py line 30). -/
def use_describe_image_prompt_default : Bool := true

/-- The two feature-toggle fields of `prompter.base_prompter` that
`evaluate_multi_choice` may overwrite. -/
structure PrompterToggles where
  prevent_direct_answer : Bool
  use_describe_image_prompt : Bool
deriving DecidableEq, Repr

/-- The toggle-overriding statements of `evaluate_multi_choice`
(main.py lines 47-50): each toggle field is forced to `False` when the
corresponding caller argument is falsy, and left untouched otherwise. -/
def applyToggles (p : PrompterToggles) (preventArg describeArg : Bool) : PrompterToggles :=
  let p := if !preventArg then { p with prevent_direct_answer := false } else p
  if !describeArg then { p with use_describe_image_prompt := false } else p

/-- The scoring tail of the loop (main.py lines 66-68): append the
sample's 0/1 outcome to `is_correct` and report
`sum(is_correct) / len(is_correct)` after each sample.  Returns the
sequence of reported running accuracies, one per processed sample. -/
def scoreLoop (acc : List ℚ) : List ℚ → List ℚ
  | [] => []
  | x :: rest =>
    let acc' := acc ++ [x]
    (acc'.sum / acc'.length) :: scoreLoop acc' rest

/-- The running accuracies reported over a full correctness sequence,
starting from the empty `is_correct` list (main.py line 39). -/
def runningAccuracies (outcomes : List ℚ) : List ℚ :=
  scoreLoop [] outcomes

/-! ## Backend selection (`select_model`, modeling.py lines 255-265) -/

/-- The backend classes registered in `model_map`. -/
inductive ModelClass where
  | GeminiVisionModel
  | OpenAIVisionModel
  | LlavaModel
  | ClaudeModel
deriving DecidableEq, Repr

/-- `model_map` (modeling.py lines 256-261), in insertion order. -/
def model_map : List (String × ModelClass) :=
  [("gemini_vision", ModelClass.GeminiVisionModel),
   ("openai_vision", ModelClass.OpenAIVisionModel),
   ("llava", ModelClass.LlavaModel),
   ("claude", ModelClass.ClaudeModel)]

/-- What Python renders for the f-string tail of the ValueError message in
`select_model`: a period, then `list(model_map.keys())` printed by `repr`. -/
def choose_from_msg : String :=
  ". Choose from ['gemini_vision', 'openai_vision', 'llava', 'claude']"

/-- `select_model` (modeling.py lines 255-265): dictionary lookup; on a
miss, a ValueError carrying the invalid name followed by the rendered
list of valid keys. -/
def select_model (model_name : String) : Except String ModelClass :=
  match model_map.lookup model_name with
  | some c => Except.ok c
  | none => Except.error (model_name ++ choose_from_msg)

/-! ## Lazy vs. eager client loading (`load` methods)

Each backend's `run` begins with `self.load()`.  We model the mutable
client/config state of a backend instance explicitly, and count how many
times the configuration source is read (file opened / client constructed),
which is exactly the body of each `load`. -/

/-- Shared shape of backend instance state: whether a client object has
been assigned, and how many times the configuration source has been read
and the client (re)constructed. -/
structure ClientState where
  clientLoaded : Bool
  loadCount : Nat
deriving DecidableEq, Repr

/-- A freshly constructed backend instance: no client, no reads. -/
def freshClient : ClientState := { clientLoaded := false, loadCount := 0 }

/-- `GeminiModel.load` (modeling.py lines 43-48): guarded by
`if self.model is None`, so the file is read and the client assigned only
when no client exists yet. -/
def geminiLoad (s : ClientState) : ClientState :=
  if s.clientLoaded then s
  else { clientLoaded := true, loadCount := s.loadCount + 1 }

/-- `OpenAIModel.load` (modeling.py lines 88-92): no guard — every call
re-opens the config file and reassigns `self.client`. -/
def openaiLoad (s : ClientState) : ClientState :=
  { clientLoaded := true, loadCount := s.loadCount + 1 }

/-- `LlavaModel.load` (modeling.py lines 174-180): guarded by
`if self.model is None`, like Gemini. -/
def llavaLoad (s : ClientState) : ClientState :=
  if s.clientLoaded then s
  else { clientLoaded := true, loadCount := s.loadCount + 1 }

/-- `ClaudeModel.load` (modeling.py lines 204-208): no guard — every call
re-opens the config file and reassigns `self.client`. -/
def claudeLoad (s : ClientState) : ClientState :=
  { clientLoaded := true, loadCount := s.loadCount + 1 }

/-- The client-state effect of `n` consecutive `run` invocations on one
backend instance: each `run` begins with `self.load()` and the retry loop
never touches the client field, so the state effect of a run is its
`load`. -/
def runsState (load : ClientState → ClientState) : Nat → ClientState → ClientState
  | 0, s => s
  | n + 1, s => runsState load n (load s)

/-! ## Helper lemmas -/

/-- `strContains s pat` from an infix witness on the character lists. -/
theorem strContains_of_infix {s pat : String} (h : pat.toList <:+: s.toList) :
    strContains s pat = true :=
  decide_eq_true h

/-- The retry loop skips attempts whose iteration leaves `output` empty. -/
theorem retryRun_all_empty (f : α → String) (l : List α)
    (h : ∀ x ∈ l, f x = "") : retryRun f l = none := by
  induction l with
  | nil => rfl
  | cons x xs ih =>
      simp only [retryRun, h x (List.mem_cons_self x xs), if_pos]
      exact ih fun y hy => h y (List.mem_cons_of_mem x hy)

/-- The retry loop returns the first attempt whose iteration yields a
non-empty `output`, skipping any finite prefix of empty-output attempts. -/
theorem retryRun_append_success (f : α → String) (fails : List α) (a : α)
    (hf : ∀ x ∈ fails, f x = "") (ha : f a ≠ "") :
    retryRun f (fails ++ [a]) = some (f a) := by
  induction fails with
  | nil => simp [retryRun, ha]
  | cons x xs ih =>
      simp only [List.cons_append, retryRun,
        hf x (List.mem_cons_self x xs), if_pos]
      exact ih fun y hy => hf y (List.mem_cons_of_mem x hy)

/-- Iterating a load that leaves an already-loaded state untouched. -/
theorem runsState_lazy (load : ClientState → ClientState)
    (hload : ∀ c, load ⟨true, c⟩ = ⟨true, c⟩) (n c : Nat) :
    runsState load n ⟨true, c⟩ = ⟨true, c⟩ := by
  induction n with
  | zero => rfl
  | succ k ih => simp only [runsState, hload, ih]

/-- Iterating a load that re-reads the config on every call adds one read
per call. -/
theorem runsState_eager (load : ClientState → ClientState)
    (hload : ∀ s, load s = ⟨true, s.loadCount + 1⟩) (n : Nat) (s : ClientState) :
    (runsState load n s).loadCount = s.loadCount + n := by
  induction n generalizing s with
  | zero => rfl
  | succ k ih =>
      show (runsState load k (load s)).loadCount = s.loadCount + (k + 1)
      rw [ih (load s), hload s]
      show s.loadCount + 1 + k = s.loadCount + (k + 1)
      omega

/-! ## Claims -/

/-- C6: for every image whose width and height are both at most
`max_image_size`, `resize_image` returns the input image itself,
unchanged — no resampling and no mode conversion. -/
theorem C6_resize_identity (m : Nat) (img : PImage)
    (hw : img.width ≤ m) (hh : img.height ≤ m) :
    resize_image m img = img := by
  simp [resize_image, hw, hh]

/-- Witness for C6: an 800 × 600 RGB image under the default maximum
size 1024 is returned unchanged. -/
theorem C6_resize_identity_witness :
    ((⟨800, 600, ImageMode.RGB⟩ : PImage).width ≤ max_image_size_default ∧
      (⟨800, 600, ImageMode.RGB⟩ : PImage).height ≤ max_image_size_default) ∧
    resize_image max_image_size_default ⟨800, 600, ImageMode.RGB⟩ =
      ⟨800, 600, ImageMode.RGB⟩ :=
  ⟨⟨by decide, by decide⟩,
    C6_resize_identity max_image_size_default ⟨800, 600, ImageMode.RGB⟩
      (by decide) (by decide)⟩

/-- C4 counterexample: the claim says both prompt-construction toggles
default to enabled in the evaluation entry point, but
`evaluate_multi_choice` declares `prevent_direct_answer: bool = False`
and, under that default, forces the prompter's `prevent_direct_answer`
field to `False` even when the prompter had it enabled. -/
theorem C4_defaults_counterexample :
    prevent_direct_answer_default = false ∧
    (applyToggles ⟨true, true⟩ prevent_direct_answer_default
        use_describe_image_prompt_default).prevent_direct_answer = false := by
  decide

/-- C4 amended: `use_describe_image_prompt` defaults to `True` but
`prevent_direct_answer` defaults to `False` in `evaluate_multi_choice`;
each prompter toggle stays enabled exactly when it was enabled in the
prompter and the corresponding caller argument is truthy (a falsy
argument forces the field off; a truthy argument leaves it as the
prompter had it). -/
theorem C4_toggle_defaults_amended (p : PrompterToggles) (a b : Bool) :
    prevent_direct_answer_default = false ∧
    use_describe_image_prompt_default = true ∧
    applyToggles p a b =
      ⟨p.prevent_direct_answer && a, p.use_describe_image_prompt && b⟩ := by
  refine ⟨rfl, rfl, ?_⟩
  rcases p with ⟨pa, pb⟩
  cases a <;> cases b <;> cases pa <;> cases pb <;> rfl

/-- C5 counterexample: the claim says every backend loads its
credentials/client lazily exactly once, but `OpenAIModel.load` and
`ClaudeModel.load` have no `is None` guard: after two `run` invocations
on a fresh instance the config source has been read twice, not once. -/
theorem C5_load_counterexample :
    (runsState openaiLoad 2 freshClient).loadCount = 2 ∧
    (runsState claudeLoad 2 freshClient).loadCount = 2 ∧
    (runsState openaiLoad 2 freshClient).loadCount ≠ 1 := by
  decide

/-- C5 amended: `GeminiModel` and `LlavaModel` initialize their client
lazily exactly once (an `if self.model is None` guard), while
`OpenAIModel` and `ClaudeModel` re-read the configuration source and
reassign the client field on every `run` invocation: after `n + 1` runs
on a fresh instance their read count is `n + 1`, not 1. -/
theorem C5_lazy_load_amended (n : Nat) :
    (runsState geminiLoad (n + 1) freshClient).loadCount = 1 ∧
    (runsState llavaLoad (n + 1) freshClient).loadCount = 1 ∧
    (runsState openaiLoad (n + 1) freshClient).loadCount = n + 1 ∧
    (runsState claudeLoad (n + 1) freshClient).loadCount = n + 1 := by
  refine ⟨?_, ?_, ?_, ?_⟩
  · show (runsState geminiLoad n (geminiLoad freshClient)).loadCount = 1
    have h1 : geminiLoad freshClient = ⟨true, 1⟩ := rfl
    rw [h1, runsState_lazy geminiLoad (fun c => rfl) n 1]
  · show (runsState llavaLoad n (llavaLoad freshClient)).loadCount = 1
    have h1 : llavaLoad freshClient = ⟨true, 1⟩ := rfl
    rw [h1, runsState_lazy llavaLoad (fun c => rfl) n 1]
  · rw [runsState_eager openaiLoad (fun s => rfl) (n + 1) freshClient]
    show 0 + (n + 1) = n + 1
    omega
  · rw [runsState_eager claudeLoad (fun s => rfl) (n + 1) freshClient]
    show 0 + (n + 1) = n + 1
    omega

/-- C10: `ClaudeModel.run` with `image = None` never returns: every loop
iteration evaluates `make_messages`, which unconditionally resizes the
image and so raises an AttributeError on `None`; that message does not
contain the filter sentinel, `output` is never set to a non-empty
string, and the retry loop makes no progress over any finite sequence of
attempts. -/
theorem C10_claude_none_never_returns (attempts : List ClaudeAttempt)
    (a : ClaudeAttempt) :
    strContains noneSizeError error_message = false ∧
    claudeAttemptOutput none a = "" ∧
    claudeRun none attempts = none := by
  refine ⟨by decide, ?_, ?_⟩
  · show (if strContains noneSizeError error_message
        then error_message else "") = ""
    rw [if_neg (by decide)]
  · exact retryRun_all_empty _ attempts fun x _ => by
      show (if strContains noneSizeError error_message
          then error_message else "") = ""
      rw [if_neg (by decide)]

/-- C2: for every sample, the backend is invoked at most twice — exactly
once when the first parsed prediction is in the sample's option set and
exactly twice otherwise; the second parse result is the final prediction
even if still invalid (no third invocation), and a final prediction
outside the option set scores 0 (the ground-truth answer being a member
of the option set). -/
theorem C2_two_stage_bound (model : Nat → String)
    (getAnswer : String → List String → String) (s : Sample)
    (hans : s.answer ∈ s.options) :
    (evalSample model getAnswer s).2 ≤ 2 ∧
    (getAnswer (model 0) s.options ∈ s.options →
      evalSample model getAnswer s = (getAnswer (model 0) s.options, 1)) ∧
    (getAnswer (model 0) s.options ∉ s.options →
      evalSample model getAnswer s = (getAnswer (model 1) s.options, 2)) ∧
    ((evalSample model getAnswer s).1 ∉ s.options →
      exactScorerRun (evalSample model getAnswer s).1 s.answer = 0) := by
  by_cases h0 : getAnswer (model 0) s.options ∈ s.options
  · refine ⟨?_, fun _ => ?_, fun hc => absurd h0 hc, fun hinv => ?_⟩
    · simp [evalSample, h0]
    · simp [evalSample, h0]
    · have h1 : (evalSample model getAnswer s).1 = getAnswer (model 0) s.options := by
        simp [evalSample, h0]
      rw [h1] at hinv
      exact absurd h0 hinv
  · refine ⟨?_, fun hc => absurd hc h0, fun _ => ?_, fun hinv => ?_⟩
    · simp [evalSample, h0]
    · simp [evalSample, h0]
    · have hne : (evalSample model getAnswer s).1 ≠ s.answer := by
        intro he
        exact hinv (he ▸ hans)
      simp [exactScorerRun, hne]

/-- Witness for C2: options ["A", "B"], answer "B", a parser that returns
the raw output verbatim, a first output "Z" outside the options and a
second output "X" also outside them — two invocations, final prediction
"X", scored 0. -/
theorem C2_two_stage_bound_witness :
    (("B" : String) ∈ ["A", "B"]) ∧
    ((evalSample (fun k => if k = 0 then "Z" else "X") (fun raw _ => raw)
        ⟨["A", "B"], "B"⟩).2 ≤ 2 ∧
      (("Z" : String) ∈ (["A", "B"] : List String) →
        evalSample (fun k => if k = 0 then "Z" else "X") (fun raw _ => raw)
          ⟨["A", "B"], "B"⟩ = ("Z", 1)) ∧
      (("Z" : String) ∉ (["A", "B"] : List String) →
        evalSample (fun k => if k = 0 then "Z" else "X") (fun raw _ => raw)
          ⟨["A", "B"], "B"⟩ = ("X", 2)) ∧
      ((evalSample (fun k => if k = 0 then "Z" else "X") (fun raw _ => raw)
          ⟨["A", "B"], "B"⟩).1 ∉ (["A", "B"] : List String) →
        exactScorerRun
          (evalSample (fun k => if k = 0 then "Z" else "X") (fun raw _ => raw)
            ⟨["A", "B"], "B"⟩).1 "B" = 0)) :=
  ⟨by decide,
    C2_two_stage_bound (fun k => if k = 0 then "Z" else "X")
      (fun raw _ => raw) ⟨["A", "B"], "B"⟩ (by decide)⟩

/-- C9: `select_model` returns the registered backend class for each of
the four recognized names, and for every unrecognized name it fails with
an error whose message contains the invalid value and every valid
backend name — there is no silent default. -/
theorem C9_select_model (name : String)
    (h : name ∉ ["gemini_vision", "openai_vision", "llava", "claude"]) :
    select_model "gemini_vision" = Except.ok ModelClass.GeminiVisionModel ∧
    select_model "openai_vision" = Except.ok ModelClass.OpenAIVisionModel ∧
    select_model "llava" = Except.ok ModelClass.LlavaModel ∧
    select_model "claude" = Except.ok ModelClass.ClaudeModel ∧
    select_model name = Except.error (name ++ choose_from_msg) ∧
    strContains (name ++ choose_from_msg) name = true ∧
    ∀ valid ∈ ["gemini_vision", "openai_vision", "llava", "claude"],
      strContains (name ++ choose_from_msg) valid = true := by
  simp only [List.mem_cons, List.not_mem_nil, or_false, not_or] at h
  obtain ⟨h1, h2, h3, h4⟩ := h
  refine ⟨rfl, rfl, rfl, rfl, ?_, ?_, ?_⟩
  · have hl : model_map.lookup name = none := by
      simp [model_map, List.lookup,
        beq_eq_false_iff_ne.mpr h1, beq_eq_false_iff_ne.mpr h2,
        beq_eq_false_iff_ne.mpr h3, beq_eq_false_iff_ne.mpr h4]
    simp [select_model, hl]
  · refine strContains_of_infix ?_
    show name.data <:+: (name ++ choose_from_msg).data
    rw [String.data_append]
    exact (List.prefix_append name.data choose_from_msg.data).isInfix
  · intro valid hv
    have hsuf : ∀ v : String, strContains choose_from_msg v = true →
        strContains (name ++ choose_from_msg) v = true := by
      intro v hcv
      refine strContains_of_infix ?_
      have h1 : v.data <:+: choose_from_msg.data := of_decide_eq_true hcv
      show v.data <:+: (name ++ choose_from_msg).data
      rw [String.data_append]
      exact h1.trans (List.suffix_append name.data choose_from_msg.data).isInfix
    simp only [List.mem_cons, List.not_mem_nil, or_false] at hv
    rcases hv with rfl | rfl | rfl | rfl
    · exact hsuf _ (by decide)
    · exact hsuf _ (by decide)
    · exact hsuf _ (by decide)
    · exact hsuf _ (by decide)

/-- Witness for C9: the unrecognized name "gpt4" is rejected with a
message containing "gpt4" and all four valid names. -/
theorem C9_select_model_witness :
    (("gpt4" : String) ∉ ["gemini_vision", "openai_vision", "llava", "claude"]) ∧
    (select_model "gemini_vision" = Except.ok ModelClass.GeminiVisionModel ∧
      select_model "openai_vision" = Except.ok ModelClass.OpenAIVisionModel ∧
      select_model "llava" = Except.ok ModelClass.LlavaModel ∧
      select_model "claude" = Except.ok ModelClass.ClaudeModel ∧
      select_model "gpt4" = Except.error ("gpt4" ++ choose_from_msg) ∧
      strContains ("gpt4" ++ choose_from_msg) "gpt4" = true ∧
      ∀ valid ∈ ["gemini_vision", "openai_vision", "llava", "claude"],
        strContains ("gpt4" ++ choose_from_msg) valid = true) :=
  ⟨by decide, C9_select_model "gpt4" (by decide)⟩

/-- The reported-accuracy sequence has one entry per scored sample. -/
theorem scoreLoop_length (xs : List ℚ) (acc : List ℚ) :
    (scoreLoop acc xs).length = xs.length := by
  induction xs generalizing acc with
  | nil => rfl
  | cons x rest ih => simp [scoreLoop, ih]

/-- The i-th reported accuracy is the sum of the outcomes accumulated up
to and including the i-th sample divided by their count. -/
theorem scoreLoop_getElem (xs : List ℚ) (acc : List ℚ) (i : Nat)
    (h : i < xs.length) :
    (scoreLoop acc xs)[i]? =
      some ((acc ++ xs.take (i + 1)).sum / ((acc.length + (i + 1) : ℕ) : ℚ)) := by
  induction xs generalizing acc i with
  | nil => simp at h
  | cons x rest ih =>
      cases i with
      | zero =>
          simp [scoreLoop, List.take]
      | succ j =>
          have hj : j < rest.length := by simpa using h
          simp only [scoreLoop, List.getElem?_cons_succ]
          rw [ih (acc ++ [x]) j hj]
          congr 2
          · rw [List.append_assoc]
            rfl
          · congr 1
            simp only [List.length_append, List.length_cons, List.length_nil]
            omega

/-- C8: after each scored sample the running accuracy reported by the
loop equals the arithmetic mean of the 0/1 outcomes recorded so far, the
outcome sequence grows by exactly one element per scored sample, and the
correctness sequence [1,0,1,1,0] yields the successive accuracies
[1, 1/2, 2/3, 3/4, 3/5]. -/
theorem C8_running_accuracy (outcomes : List ℚ) (i : Nat)
    (h : i < outcomes.length) :
    (runningAccuracies outcomes).length = outcomes.length ∧
    (runningAccuracies outcomes)[i]? =
      some ((outcomes.take (i + 1)).sum / ((i + 1 : ℕ) : ℚ)) ∧
    runningAccuracies [1, 0, 1, 1, 0] = [1, 1/2, 2/3, 3/4, 3/5] := by
  refine ⟨scoreLoop_length outcomes [], ?_, ?_⟩
  · rw [runningAccuracies, scoreLoop_getElem outcomes [] i h]
    simp
  · norm_num [runningAccuracies, scoreLoop]

/-- Witness for C8 at the correctness sequence [1,0,1,1,0] and index 2:
the third reported accuracy is 2/3. -/
theorem C8_running_accuracy_witness :
    2 < ([1, 0, 1, 1, 0] : List ℚ).length ∧
    ((runningAccuracies [1, 0, 1, 1, 0]).length =
        ([1, 0, 1, 1, 0] : List ℚ).length ∧
      (runningAccuracies [1, 0, 1, 1, 0])[2]? =
        some ((([1, 0, 1, 1, 0] : List ℚ).take 3).sum / ((3 : ℕ) : ℚ)) ∧
      runningAccuracies [1, 0, 1, 1, 0] = [1, 1/2, 2/3, 3/4, 3/5]) :=
  ⟨by decide, C8_running_accuracy [1, 0, 1, 1, 0] 2 (by decide)⟩

/-- C1 counterexample: the claim asserts the retry-until-success contract
for every backend including Llava, but `LlavaModel.run` has no retry
loop: it returns the single decoded generation as-is, so a generation
that decodes to the empty string makes `run` return the empty string. -/
theorem C1_llava_counterexample :
    llavaRun (fun _ _ => "") max_image_size_default "prompt" none = "" := rfl

/-- C1 amended: the retry-until-success contract holds for the Gemini,
OpenAI and Claude backends — given any finite sequence of attempts whose
loop iterations leave `output` empty (exceptions without the sentinel
text, or responses with empty text) followed by one attempt whose
iteration produces a non-empty output, `run` returns that output — but
not for Llava, whose `run` performs exactly one generation with no retry
loop and returns the decoded text even when it is empty. -/
theorem C1_retry_until_success_amended
    (gfails : List GeminiAttempt) (gsucc : GeminiAttempt)
    (ofails : List OpenAIAttempt) (osucc : OpenAIAttempt)
    (cfails : List ClaudeAttempt) (csucc : ClaudeAttempt) (img : PImage)
    (hgf : ∀ a ∈ gfails, geminiAttemptOutput a = "")
    (hgs : geminiAttemptOutput gsucc ≠ "")
    (hof : ∀ a ∈ ofails, openaiAttemptOutput a = "")
    (hos : openaiAttemptOutput osucc ≠ "")
    (hcf : ∀ a ∈ cfails, claudeAttemptOutput (some img) a = "")
    (hcs : claudeAttemptOutput (some img) csucc ≠ "") :
    geminiRun (gfails ++ [gsucc]) = some (geminiAttemptOutput gsucc) ∧
    openaiRun (ofails ++ [osucc]) = some (openaiAttemptOutput osucc) ∧
    claudeRun (some img) (cfails ++ [csucc]) =
      some (claudeAttemptOutput (some img) csucc) ∧
    llavaRun (fun _ _ => "") max_image_size_default "prompt" none = "" :=
  ⟨retryRun_append_success geminiAttemptOutput gfails gsucc hgf hgs,
    retryRun_append_success openaiAttemptOutput ofails osucc hof hos,
    retryRun_append_success (claudeAttemptOutput (some img)) cfails csucc hcf hcs,
    rfl⟩

/-- Witness for C1 amended: one failed attempt (a network exception)
followed by a successful response on each looping backend. -/
theorem C1_retry_until_success_witness :
    ((∀ a ∈ [GeminiAttempt.exc "network error"], geminiAttemptOutput a = "") ∧
      geminiAttemptOutput (GeminiAttempt.response "vars" ["p"] "gemini says B") ≠ "" ∧
      (∀ a ∈ [OpenAIAttempt.exc "timeout"], openaiAttemptOutput a = "") ∧
      openaiAttemptOutput (OpenAIAttempt.response "stop" "openai says B") ≠ "" ∧
      (∀ a ∈ [ClaudeAttempt.exc "connection reset"],
        claudeAttemptOutput (some ⟨64, 64, ImageMode.RGB⟩) a = "") ∧
      claudeAttemptOutput (some ⟨64, 64, ImageMode.RGB⟩)
        (ClaudeAttempt.response "claude says B") ≠ "") ∧
    (geminiRun ([GeminiAttempt.exc "network error"] ++
        [GeminiAttempt.response "vars" ["p"] "gemini says B"]) =
      some (geminiAttemptOutput (GeminiAttempt.response "vars" ["p"] "gemini says B")) ∧
      openaiRun ([OpenAIAttempt.exc "timeout"] ++
          [OpenAIAttempt.response "stop" "openai says B"]) =
        some (openaiAttemptOutput (OpenAIAttempt.response "stop" "openai says B")) ∧
      claudeRun (some ⟨64, 64, ImageMode.RGB⟩)
          ([ClaudeAttempt.exc "connection reset"] ++
            [ClaudeAttempt.response "claude says B"]) =
        some (claudeAttemptOutput (some ⟨64, 64, ImageMode.RGB⟩)
          (ClaudeAttempt.response "claude says B")) ∧
      llavaRun (fun _ _ => "") max_image_size_default "prompt" none = "") :=
  ⟨⟨by decide, by decide, by decide, by decide, by decide, by decide⟩,
    C1_retry_until_success_amended
      [GeminiAttempt.exc "network error"]
      (GeminiAttempt.response "vars" ["p"] "gemini says B")
      [OpenAIAttempt.exc "timeout"]
      (OpenAIAttempt.response "stop" "openai says B")
      [ClaudeAttempt.exc "connection reset"]
      (ClaudeAttempt.response "claude says B")
      ⟨64, 64, ImageMode.RGB⟩
      (by decide) (by decide) (by decide) (by decide) (by decide) (by decide)⟩

/-- C3 counterexample: the claim says every backend returns a fixed,
attempt-independent sentinel when the content filter fires, but on a
blocked response `GeminiModel.run` returns `str(vars(response))` — two
blocked responses with different contents yield two different return
values. -/
theorem C3_filter_sentinel_counterexample :
    geminiRun [GeminiAttempt.response "vars with block_reason SAFETY" [] ""] =
      some "vars with block_reason SAFETY" ∧
    geminiRun
        [GeminiAttempt.response "other vars with block_reason RECITATION" [] ""] =
      some "other vars with block_reason RECITATION" ∧
    ("vars with block_reason SAFETY" : String) ≠
      "other vars with block_reason RECITATION" :=
  ⟨by decide, by decide, by decide⟩

/-- C3 amended: when the backend signals a blocked/filtered response,
`run` terminates on that same attempt without further retries and
returns a non-empty string; for OpenAI (a `content_filter` finish
reason) and Claude (an exception whose message contains the sentinel)
that string is the fixed sentinel "The response was filtered", while for
Gemini (a response whose `str(vars(...))` contains "block_reason") it is
the string representation of the blocked response itself, which is
non-empty but varies with the response. -/
theorem C3_filter_sentinel_amended
    (orest : List OpenAIAttempt) (content : String)
    (crest : List ClaudeAttempt) (img : PImage) (msg : String)
    (grest : List GeminiAttempt) (varsStr : String) (parts : List String)
    (text : String)
    (hmsg : strContains msg error_message = true)
    (hblock : strContains varsStr "block_reason" = true) :
    openaiRun (OpenAIAttempt.response "content_filter" content :: orest) =
      some error_message ∧
    claudeRun (some img) (ClaudeAttempt.exc msg :: crest) = some error_message ∧
    geminiRun (GeminiAttempt.response varsStr parts text :: grest) =
      some varsStr ∧
    varsStr ≠ "" ∧ error_message ≠ "" := by
  have hvne : varsStr ≠ "" := by
    intro he
    rw [he] at hblock
    exact absurd hblock (by decide)
  have h1 : openaiAttemptOutput (OpenAIAttempt.response "content_filter" content) =
      error_message := by
    simp [openaiAttemptOutput]
  have h2 : claudeAttemptOutput (some img) (ClaudeAttempt.exc msg) =
      error_message := by
    simp [claudeAttemptOutput, hmsg]
  have h3 : geminiAttemptOutput (GeminiAttempt.response varsStr parts text) =
      varsStr := by
    simp [geminiAttemptOutput, hblock]
  refine ⟨?_, ?_, ?_, hvne, by decide⟩
  · show retryRun openaiAttemptOutput _ = _
    simp only [retryRun, h1]
    rw [if_neg (by decide : ¬(error_message = ""))]
  · show retryRun (claudeAttemptOutput (some img)) _ = _
    simp only [retryRun, h2]
    rw [if_neg (by decide : ¬(error_message = ""))]
  · show retryRun geminiAttemptOutput _ = _
    simp only [retryRun, h3]
    rw [if_neg hvne]

/-- Witness for C3 amended: a content-filtered OpenAI response, a Claude
exception carrying the sentinel text, and a blocked Gemini response,
each as the first attempt. -/
theorem C3_filter_sentinel_witness :
    (strContains "Error code 400: The response was filtered" error_message = true ∧
      strContains "feedback with block_reason SAFETY" "block_reason" = true) ∧
    (openaiRun (OpenAIAttempt.response "content_filter" "ignored" :: []) =
        some error_message ∧
      claudeRun (some ⟨2, 2, ImageMode.RGB⟩)
          (ClaudeAttempt.exc "Error code 400: The response was filtered" :: []) =
        some error_message ∧
      geminiRun
          (GeminiAttempt.response "feedback with block_reason SAFETY" [] "" :: []) =
        some "feedback with block_reason SAFETY" ∧
      ("feedback with block_reason SAFETY" : String) ≠ "" ∧
      error_message ≠ "") :=
  ⟨⟨by decide, by decide⟩,
    C3_filter_sentinel_amended [] "ignored" [] ⟨2, 2, ImageMode.RGB⟩
      "Error code 400: The response was filtered" []
      "feedback with block_reason SAFETY" [] ""
      (by decide) (by decide)⟩

/-- Rounding to nearest is monotone over ℚ. -/
theorem round_mono_rat {x y : ℚ} (h : x ≤ y) : round x ≤ round y := by
  rw [round_eq, round_eq]
  exact Int.floor_le_floor (by linarith)

/-- Rounding a nonnegative rational gives a nonnegative integer. -/
theorem round_nonneg_rat {x : ℚ} (h : 0 ≤ x) : 0 ≤ round x := by
  have h0 : round (0 : ℚ) ≤ round x := round_mono_rat h
  simpa using h0

/-- With `factor = m / p` for the larger dimension `p`, the larger
dimension rescales exactly to `m` and the smaller dimension `q` to at
most `m`, both rounding to nonnegative integers. -/
theorem round_factor_facts (m p q : Nat) (hq : q ≤ p) (hm : m < p) :
    round ((p : ℚ) * ((m : ℚ) / (p : ℚ))) = (m : ℤ) ∧
    round ((q : ℚ) * ((m : ℚ) / (p : ℚ))) ≤ (m : ℤ) ∧
    0 ≤ round ((q : ℚ) * ((m : ℚ) / (p : ℚ))) := by
  have hp0 : 0 < p := lt_of_le_of_lt (Nat.zero_le m) hm
  have hpq : (0 : ℚ) < (p : ℚ) := by exact_mod_cast hp0
  have hexact : (p : ℚ) * ((m : ℚ) / (p : ℚ)) = (m : ℚ) := by
    rw [mul_comm, div_mul_cancel₀ _ (ne_of_gt hpq)]
  have hle : (q : ℚ) * ((m : ℚ) / (p : ℚ)) ≤ (p : ℚ) * ((m : ℚ) / (p : ℚ)) := by
    have hqp : (q : ℚ) ≤ (p : ℚ) := by exact_mod_cast hq
    exact mul_le_mul_of_nonneg_right hqp (by positivity)
  refine ⟨?_, ?_, ?_⟩
  · rw [hexact, round_natCast]
  · have hr := round_mono_rat hle
    rwa [hexact, round_natCast] at hr
  · exact round_nonneg_rat (by positivity)

/-- Scaling two nonnegative quantities by a common factor and rounding
each to the nearest integer perturbs the cross products by at most half
of each quantity: the aspect ratio is preserved within rounding error. -/
theorem round_mul_aspect (x y g : ℚ) (hx : 0 ≤ x) (hy : 0 ≤ y) :
    |((round (x * g) : ℤ) : ℚ) * y - ((round (y * g) : ℤ) : ℚ) * x| ≤
      (x + y) / 2 := by
  have h1 : |((round (x * g) : ℤ) : ℚ) - x * g| ≤ 1 / 2 := by
    rw [abs_sub_comm]
    exact abs_sub_round (x * g)
  have h2 : |((round (y * g) : ℤ) : ℚ) - y * g| ≤ 1 / 2 := by
    rw [abs_sub_comm]
    exact abs_sub_round (y * g)
  have e : ((round (x * g) : ℤ) : ℚ) * y - ((round (y * g) : ℤ) : ℚ) * x =
      (((round (x * g) : ℤ) : ℚ) - x * g) * y -
        (((round (y * g) : ℤ) : ℚ) - y * g) * x := by
    ring
  rw [e]
  have t1 : |(((round (x * g) : ℤ) : ℚ) - x * g) * y| ≤ 1 / 2 * y := by
    rw [abs_mul, abs_of_nonneg hy]
    exact mul_le_mul_of_nonneg_right h1 hy
  have t2 : |(((round (y * g) : ℤ) : ℚ) - y * g) * x| ≤ 1 / 2 * x := by
    rw [abs_mul, abs_of_nonneg hx]
    exact mul_le_mul_of_nonneg_right h2 hx
  calc |(((round (x * g) : ℤ) : ℚ) - x * g) * y -
          (((round (y * g) : ℤ) : ℚ) - y * g) * x|
      ≤ |(((round (x * g) : ℤ) : ℚ) - x * g) * y| +
          |(((round (y * g) : ℤ) : ℚ) - y * g) * x| := abs_sub _ _
    _ ≤ 1 / 2 * y + 1 / 2 * x := add_le_add t1 t2
    _ = (x + y) / 2 := by ring

/-- C7: for every image with a dimension exceeding the maximum size,
`resize_image` computes `factor = max_image_size / max(width, height)`,
scales both dimensions by the factor with round-to-nearest, and returns
a new image whose larger dimension equals the maximum size exactly and
whose aspect ratio is preserved within rounding error
(the cross products of new and old dimensions differ by at most
(width + height) / 2); an RGBA image is converted to RGB before the
resampling. -/
theorem C7_resize_downscale (m : Nat) (img : PImage)
    (h : ¬(img.width ≤ m ∧ img.height ≤ m)) :
    (resize_image m img).width =
      (round ((img.width : ℚ) *
        ((m : ℚ) / ((max img.width img.height : ℕ) : ℚ)))).toNat ∧
    (resize_image m img).height =
      (round ((img.height : ℚ) *
        ((m : ℚ) / ((max img.width img.height : ℕ) : ℚ)))).toNat ∧
    max (resize_image m img).width (resize_image m img).height = m ∧
    |((resize_image m img).width : ℚ) * (img.height : ℚ) -
        ((resize_image m img).height : ℚ) * (img.width : ℚ)| ≤
      ((img.width : ℚ) + (img.height : ℚ)) / 2 ∧
    (resize_image m img).mode =
      (if img.mode = ImageMode.RGBA then ImageMode.RGB else img.mode) := by
  have hw : (resize_image m img).width =
      (round ((img.width : ℚ) *
        ((m : ℚ) / ((max img.width img.height : ℕ) : ℚ)))).toNat := by
    simp only [resize_image]
    rw [if_neg h]
  have hh : (resize_image m img).height =
      (round ((img.height : ℚ) *
        ((m : ℚ) / ((max img.width img.height : ℕ) : ℚ)))).toNat := by
    simp only [resize_image]
    rw [if_neg h]
  have hmo : (resize_image m img).mode =
      (if img.mode = ImageMode.RGBA then ImageMode.RGB else img.mode) := by
    simp only [resize_image]
    rw [if_neg h]
  have hmx : m < max img.width img.height := by
    rcases not_and_or.mp h with h1 | h1
    · exact lt_max_iff.mpr (Or.inl (Nat.lt_of_not_le h1))
    · exact lt_max_iff.mpr (Or.inr (Nat.lt_of_not_le h1))
  have hA0 : 0 ≤ round ((img.width : ℚ) *
      ((m : ℚ) / ((max img.width img.height : ℕ) : ℚ))) :=
    round_nonneg_rat (by positivity)
  have hB0 : 0 ≤ round ((img.height : ℚ) *
      ((m : ℚ) / ((max img.width img.height : ℕ) : ℚ))) :=
    round_nonneg_rat (by positivity)
  have hAc : (((round ((img.width : ℚ) *
        ((m : ℚ) / ((max img.width img.height : ℕ) : ℚ)))).toNat : ℕ) : ℚ) =
      ((round ((img.width : ℚ) *
        ((m : ℚ) / ((max img.width img.height : ℕ) : ℚ))) : ℤ) : ℚ) := by
    conv_rhs => rw [← Int.toNat_of_nonneg hA0]
    rw [Int.cast_natCast]
  have hBc : (((round ((img.height : ℚ) *
        ((m : ℚ) / ((max img.width img.height : ℕ) : ℚ)))).toNat : ℕ) : ℚ) =
      ((round ((img.height : ℚ) *
        ((m : ℚ) / ((max img.width img.height : ℕ) : ℚ))) : ℤ) : ℚ) := by
    conv_rhs => rw [← Int.toNat_of_nonneg hB0]
    rw [Int.cast_natCast]
  refine ⟨hw, hh, ?_, ?_, hmo⟩
  · rw [hw, hh]
    rcases le_total img.height img.width with hba | hab
    · have hmW : m < img.width := by
        rwa [max_eq_left hba] at hmx
      obtain ⟨e1, e2, e3⟩ := round_factor_facts m img.width img.height hba hmW
      rw [max_eq_left hba, e1, Int.toNat_natCast]
      exact max_eq_left (Int.toNat_le.mpr e2)
    · have hmH : m < img.height := by
        rwa [max_eq_right hab] at hmx
      obtain ⟨e1, e2, e3⟩ := round_factor_facts m img.height img.width hab hmH
      rw [max_eq_right hab, e1, Int.toNat_natCast]
      exact max_eq_right (Int.toNat_le.mpr e2)
  · rw [hw, hh, hAc, hBc]
    exact round_mul_aspect (img.width : ℚ) (img.height : ℚ)
      ((m : ℚ) / ((max img.width img.height : ℕ) : ℚ))
      (by positivity) (by positivity)

/-- Witness for C7: a 2048 × 1536 RGBA image under the default maximum
size 1024 (factor 1/2, new size 1024 × 768, mode converted to RGB). -/
theorem C7_resize_downscale_witness :
    (¬((⟨2048, 1536, ImageMode.RGBA⟩ : PImage).width ≤ max_image_size_default ∧
        (⟨2048, 1536, ImageMode.RGBA⟩ : PImage).height ≤ max_image_size_default)) ∧
    ((resize_image max_image_size_default ⟨2048, 1536, ImageMode.RGBA⟩).width =
        (round (((⟨2048, 1536, ImageMode.RGBA⟩ : PImage).width : ℚ) *
          ((max_image_size_default : ℚ) /
            ((max (⟨2048, 1536, ImageMode.RGBA⟩ : PImage).width
              (⟨2048, 1536, ImageMode.RGBA⟩ : PImage).height : ℕ) : ℚ)))).toNat ∧
      (resize_image max_image_size_default ⟨2048, 1536, ImageMode.RGBA⟩).height =
        (round (((⟨2048, 1536, ImageMode.RGBA⟩ : PImage).height : ℚ) *
          ((max_image_size_default : ℚ) /
            ((max (⟨2048, 1536, ImageMode.RGBA⟩ : PImage).width
              (⟨2048, 1536, ImageMode.RGBA⟩ : PImage).height : ℕ) : ℚ)))).toNat ∧
      max (resize_image max_image_size_default ⟨2048, 1536, ImageMode.RGBA⟩).width
          (resize_image max_image_size_default ⟨2048, 1536, ImageMode.RGBA⟩).height =
        max_image_size_default ∧
      |((resize_image max_image_size_default ⟨2048, 1536, ImageMode.RGBA⟩).width : ℚ) *
            (((⟨2048, 1536, ImageMode.RGBA⟩ : PImage).height : ℕ) : ℚ) -
          ((resize_image max_image_size_default ⟨2048, 1536, ImageMode.RGBA⟩).height : ℚ) *
            (((⟨2048, 1536, ImageMode.RGBA⟩ : PImage).width : ℕ) : ℚ)| ≤
        ((((⟨2048, 1536, ImageMode.RGBA⟩ : PImage).width : ℕ) : ℚ) +
            (((⟨2048, 1536, ImageMode.RGBA⟩ : PImage).height : ℕ) : ℚ)) / 2 ∧
      (resize_image max_image_size_default ⟨2048, 1536, ImageMode.RGBA⟩).mode =
        (if (⟨2048, 1536, ImageMode.RGBA⟩ : PImage).mode = ImageMode.RGBA
          then ImageMode.RGB
          else (⟨2048, 1536, ImageMode.RGBA⟩ : PImage).mode)) :=
  ⟨by decide,
    C7_resize_downscale max_image_size_default ⟨2048, 1536, ImageMode.RGBA⟩ (by decide)⟩
